import Mathlib

/-!
Shallow embedding of the CPX400DP power-supply driver
(`src/Instruments/PowerSupplies/CPX400DP/cpx400dp.py` and
`src/instruments/instrument.py`).

Python exceptions are modelled by an explicit error type; the sub-queries a
status decode issues (`LSR1?`, `LSR2?`, `*ESR?`, `EER?`) are recorded as a
trace, and the device's responses to those sub-queries are supplied by an
`Oracle` (a fake transport returning fixed sub-register values).  `logger`
and `logging` warnings are recorded as structured `LogEvent`s.
-/

namespace CPX

/-- Python exceptions raised by the driver.  `cpx m` is a
`CPX400DPError(m)` with message `m`; `cpxRange reg v` is the
`CPX400DPError` raised when a register value is outside 0..255 (the
message it renders is recovered by `PyError.message`); `keyError k` is the
Python `KeyError` raised by `messages[eer]` on an unknown code;
`timeoutError m` is the Python `TimeoutError` raised by `_read`. -/
inductive PyError where
  | cpx (msg : String)
  | cpxRange (reg : String) (v : Int)
  | keyError (k : Int)
  | timeoutError (msg : String)
deriving DecidableEq, Repr

/-- The message text each modelled exception carries, matching the source
f-strings (note the source uses the text "limit event register" for both
the ESR and the LSR out-of-range messages). -/
def PyError.message : PyError → String
  | .cpx m => m
  | .cpxRange reg v => "Unknown value for " ++ reg ++ " register: " ++ toString v
  | .keyError k => toString k
  | .timeoutError m => m

/-- `ProtocolConsistencyError` in the spec's taxonomy: the defensive
out-of-range register error (source message "Unknown value for ..."). -/
def isConsistencyError : PyError → Bool
  | .cpxRange _ _ => true
  | _ => false

/-- Warnings emitted through `logger.warning` / `logging.warning`:
`limit ch msg` models `logger.warning(f'CH{ch} LIMIT - {msg}')`;
`eventStatus` models the `logging.warning(f'EVENT STATUS: ...')` line. -/
inductive LogEvent where
  | limit (ch : Nat) (msg : String)
  | eventStatus
deriving DecidableEq, Repr

/-- Fixed responses of the fake transport to the status sub-queries
(`int(self.query(...))` / `int(self._read())` results). -/
structure Oracle where
  stb : Int
  lsr1 : Int
  lsr2 : Int
  esr : Int
  eer : Int
deriving DecidableEq, Repr

/-- Result of running one decode step: the sub-queries it issued (in
order), the warnings it logged, and the exception it raised, if any. -/
structure Res where
  queries : List String
  warnings : List LogEvent
  err : Option PyError
deriving DecidableEq, Repr

/-- Sequencing with Python exception semantics: if the first step raised,
the rest of the statements are skipped (its trace is kept); otherwise the
traces concatenate and the second step's outcome stands. -/
def andThen (r : Res) (f : Unit → Res) : Res :=
  if r.err.isSome then r
  else
    let s := f ()
    ⟨r.queries ++ s.queries, r.warnings ++ s.warnings, s.err⟩

/-- The `messages` dict of `_process_execution_error`, as an association
list, source typos preserved (`8:Internal`, `invlaid`, `setup date`). -/
def execution_error_messages : List (Int × String) :=
  [(0, "0: No error encountered"),
   (1, "1: Internal hardware error"),
   (2, "2: Internal hardware error"),
   (3, "3: Internal hardware error"),
   (4, "4: Internal hardware error"),
   (5, "5: Internal hardware error"),
   (6, "6: Internal hardware error"),
   (7, "7: Internal hardware error"),
   (8, "8:Internal hardware error"),
   (9, "9: Internal hardware error"),
   (100, "100: Range error. Input value invlaid"),
   (101, "101: Corrupted setup date"),
   (102, "102: Missing setup data"),
   (103, "103: No second output"),
   (104, "104: Command not valid with output on"),
   (200, "200: Read only, interface is locked")]

/-- `_process_execution_error`: `raise CPX400DPError(messages[eer])`.
It raises unconditionally: a code in the table raises `CPX400DPError`
with that code's message (including code 0), and a code missing from the
table raises the Python `KeyError` of the dict lookup. -/
def process_execution_error (eer : Int) : PyError :=
  match (execution_error_messages.find? (fun p => p.1 == eer)).map (fun p => p.2) with
  | some m => .cpx m
  | none => .keyError eer

/-- `_process_limit_event_register(lsr, ch)`: for `lsr` in 0..255 each set
meaningful bit (0,1,2,3,4,6) logs one channel-tagged warning, in bit
order, and nothing is raised (bits 5 and 7 are unused `pass` branches);
out of range it raises the `Unknown value` error and does nothing else. -/
def process_limit_event_register (lsr : Int) (ch : Nat) :
    List LogEvent × Option PyError :=
  if 0 ≤ lsr ∧ lsr ≤ 255 then
    ((if lsr.toNat.testBit 0 = true then [.limit ch "output entered voltage limit mode"] else []) ++
     (if lsr.toNat.testBit 1 = true then [.limit ch "output entered current limit mode"] else []) ++
     (if lsr.toNat.testBit 2 = true then [.limit ch "output over voltage trip occured"] else []) ++
     (if lsr.toNat.testBit 3 = true then [.limit ch "output over current trip occured"] else []) ++
     (if lsr.toNat.testBit 4 = true then [.limit ch "output entered power limit mode (unregulated)"] else []) ++
     (if lsr.toNat.testBit 6 = true then [.limit ch "trip occured (frontpanel reset required)"] else []),
     none)
  else ([], some (.cpxRange "limit event" lsr))

/-- `_process_event_status_register(esr)`: sequential bit tests where a
`raise` aborts the rest of the function.  Bits 0, 1, 6, 7 are `pass`
branches.  Bit 2 raises the query error, bit 3 the verify-timeout error;
bit 4 issues the `EER?` sub-query and hands the result to
`_process_execution_error` (which raises on every code, so control never
reaches bit 5 when bit 4 is set); bit 5 raises the command parsing error.
Returns the sub-queries issued and the exception raised, if any. -/
def process_event_status_register (esr : Int) (orc : Oracle) :
    List String × Option PyError :=
  if 0 ≤ esr ∧ esr ≤ 255 then
    if esr.toNat.testBit 2 = true then
      ([], some (.cpx "Query error: (documentation seems incomplete)"))
    else if esr.toNat.testBit 3 = true then
      ([], some (.cpx "Verify timeout error"))
    else if esr.toNat.testBit 4 = true then
      (["EER?"], some (process_execution_error orc.eer))
    else if esr.toNat.testBit 5 = true then
      ([], some (.cpx "Command parsing error"))
    else ([], none)
  else ([], some (.cpxRange "limit event" esr))

/-- `_process_status_byte_register(stb)`: for `stb` in 0..255 the set bits
are handled in order by sequential `if` statements — bit 0 queries `LSR1?`
and decodes it as the channel-1 limit register, bit 1 queries `LSR2?` for
channel 2, bit 5 queries `*ESR?`, decodes it as the event status register
and (when that decode returns) logs the `EVENT STATUS` warning; bits 2, 3,
4, 6 and 7 are `pass` branches.  A raise inside one bit's handler skips
the later bits.  Out of range it raises the `Unknown value` error. -/
def process_status_byte_register (stb : Int) (orc : Oracle) : Res :=
  if 0 ≤ stb ∧ stb ≤ 255 then
    andThen
      (if stb.toNat.testBit 0 = true then
        ⟨["LSR1?"], (process_limit_event_register orc.lsr1 1).1,
         (process_limit_event_register orc.lsr1 1).2⟩
      else ⟨[], [], none⟩)
      (fun _ =>
        andThen
          (if stb.toNat.testBit 1 = true then
            ⟨["LSR2?"], (process_limit_event_register orc.lsr2 2).1,
             (process_limit_event_register orc.lsr2 2).2⟩
          else ⟨[], [], none⟩)
          (fun _ =>
            if stb.toNat.testBit 5 = true then
              ⟨"*ESR?" :: (process_event_status_register orc.esr orc).1,
               match (process_event_status_register orc.esr orc).2 with
               | none => [LogEvent.eventStatus]
               | some _ => [],
               (process_event_status_register orc.esr orc).2⟩
            else ⟨[], [], none⟩))
  else ⟨[], [], some (.cpxRange "status byte" stb)⟩

/-- `_check_status`: writes `*STB?`, reads the status byte (supplied by
the oracle) and hands it to `_process_status_byte_register`. -/
def check_status (orc : Oracle) : Res :=
  let r := process_status_byte_register orc.stb orc
  ⟨"*STB?" :: r.queries, r.warnings, r.err⟩

instance : DecidableEq (Except PyError String) := fun a b =>
  match a, b with
  | .ok x, .ok y =>
      if h : x = y then isTrue (by rw [h]) else isFalse (by intro hc; cases hc; exact h rfl)
  | .error x, .error y =>
      if h : x = y then isTrue (by rw [h]) else isFalse (by intro hc; cases hc; exact h rfl)
  | .ok _, .error _ => isFalse (by intro hc; cases hc)
  | .error _, .ok _ => isFalse (by intro hc; cases hc)

/-- Result of a `query` call: the commands written (in order), the
warnings logged, and either the response line or the exception raised. -/
structure QueryRes where
  writes : List String
  warnings : List LogEvent
  result : Except PyError String
deriving DecidableEq, Repr

/-- `query(cmd)`: writes `cmd` and reads one response.  `resp` is what
`connection.read_until` delivers; an empty read makes `_read` raise
`TimeoutError`, in which case `_check_status()` is run inside the
`except` block and then the original timeout is re-raised (an exception
raised by the cascade itself propagates instead).  On a successful read
the response is returned directly — no status check is performed on this
path. -/
def query (cmd : String) (resp : String) (orc : Oracle) : QueryRes :=
  if resp = "" then
    let r := check_status orc
    ⟨cmd :: r.queries, r.warnings,
     .error (match r.err with
             | some e => e
             | none => .timeoutError "Did not recieve any response from CPX400DP")⟩
  else ⟨[cmd], [], .ok resp⟩

/-- A fake transport whose registers all read 0 (used to instantiate the
universally quantified theorems at a concrete benign device). -/
def oracle0 : Oracle := ⟨0, 0, 0, 0, 0⟩

/-- `_Instrument._open_concrete` as it acts on the class-global
`_open_instruments` registry: the instrument is added (`WeakSet.add`). -/
def open_concrete (reg : Finset Nat) (i : Nat) : Finset Nat :=
  insert i reg

/-- `_Instrument.close` as it acts on the registry: after `_close()` the
instrument is removed, guarded by the `if self in _open_instruments`
membership test, so a repeat close leaves the registry unchanged and
never raises. -/
def close (reg : Finset Nat) (i : Nat) : Finset Nat :=
  if i ∈ reg then reg.erase i else reg

/-- The setter command `f'V{ch} {value:.3f}'`, with the float value
modelled as an exact count of millivolts (`milli / 1000` volts); `fmt3`
renders the fixed 3-decimal formatting of such a value. -/
def fmt3 (milli : Nat) : String :=
  toString (milli / 1000) ++ "." ++
    (if milli % 1000 < 10 then "00" else if milli % 1000 < 100 then "0" else "") ++
    toString (milli % 1000)

/-- `voltage_setpoint` setter: `cmd = f'V{ch} {value:.3f}'`. -/
def set_voltage_setpoint_cmd (ch : Nat) (milli : Nat) : String :=
  "V" ++ toString ch ++ " " ++ fmt3 milli

/-- Python `str.split(sep)` on a character list. -/
def splitOnChar (sep : Char) : List Char → List (List Char)
  | [] => [[]]
  | c :: rest =>
      if c = sep then [] :: splitOnChar sep rest
      else
        match splitOnChar sep rest with
        | [] => [[c]]
        | w :: ws => (c :: w) :: ws

/-- Numeric value of a decimal digit character. -/
def digitVal (c : Char) : Option Nat :=
  if '0' ≤ c ∧ c ≤ '9' then some (c.toNat - '0'.toNat) else none

def charsToNatAux (acc : Nat) : List Char → Option Nat
  | [] => some acc
  | c :: rest =>
      match digitVal c with
      | some d => charsToNatAux (acc * 10 + d) rest
      | none => none

/-- Decimal digit string to `Nat` (empty input is not a number). -/
def charsToNat? : List Char → Option Nat
  | [] => none
  | cs => charsToNatAux 0 cs

/-- Python `float(s)` restricted to the driver's numeric grammar (at most
three fraction digits), returning exact milli-units. -/
def parse_float_milli (s : List Char) : Option Nat :=
  match splitOnChar '.' s with
  | [i] => (charsToNat? i).map (fun a => a * 1000)
  | [i, f] =>
      match charsToNat? i, charsToNat? f with
      | some a, some b =>
          if f.length = 1 then some (a * 1000 + b * 100)
          else if f.length = 2 then some (a * 1000 + b * 10)
          else if f.length = 3 then some (a * 1000 + b)
          else none
      | _, _ => none
  | _ => none

/-- `voltage_setpoint` getter: `float(result.split(' ')[1])` applied to
the response line. -/
def voltage_setpoint_from_response (resp : String) : Option Nat :=
  match (splitOnChar ' ' resp.data)[1]? with
  | some v => parse_float_milli v
  | none => none

/-- True when the char list contains no `\r\n` sequence. -/
def noCRLF : List Char → Bool
  | [] => true
  | c :: rest =>
      if c = '\r' ∧ rest.head? = some '\n' then false else noCRLF rest

/-- `connection.read_until(b'\r\n')` on the bytes the device delivers
before the timeout: everything up to and including the first `\r\n`, or
the whole buffer when no terminator arrives. -/
def read_until_crlf : List Char → List Char
  | [] => []
  | c :: rest =>
      if c = '\r' ∧ rest.head? = some '\n' then ['\r', '\n']
      else c :: read_until_crlf rest

/-- `_read`: `connection.read_until(b'\r\n').decode('utf-8')`, raising
`TimeoutError` when the read produced nothing, and otherwise returning
the result as-is. -/
def read (buffer : String) : Except PyError String :=
  let result := String.mk (read_until_crlf buffer.data)
  if result = "" then
    .error (.timeoutError "Did not recieve any response from CPX400DP")
  else .ok result

/-- The bits of the Limit Status Register that carry a warning in the
source (bits 5 and 7 are unused `pass` branches). -/
def limit_bits (n : Nat) : List Nat :=
  [0, 1, 2, 3, 4, 6].filter (n.testBit ·)

/-- The warning text the source logs for each meaningful LSR bit. -/
def limit_message : Nat → String
  | 0 => "output entered voltage limit mode"
  | 1 => "output entered current limit mode"
  | 2 => "output over voltage trip occured"
  | 3 => "output over current trip occured"
  | 4 => "output entered power limit mode (unregulated)"
  | _ => "trip occured (frontpanel reset required)"

/-- The sub-queries the §4.4 status-byte table itself names (the nested
`EER?` query belongs to the event-status decode, one level deeper). -/
def isTopQuery (q : String) : Bool :=
  ["LSR1?", "LSR2?", "*ESR?"].contains q

/-- All sub-register values a fake transport returns are in 0..255. -/
def oracle_in_range (orc : Oracle) : Prop :=
  (0 ≤ orc.lsr1 ∧ orc.lsr1 ≤ 255) ∧ (0 ≤ orc.lsr2 ∧ orc.lsr2 ≤ 255) ∧
    (0 ≤ orc.esr ∧ orc.esr ≤ 255)

instance (orc : Oracle) : Decidable (oracle_in_range orc) := by
  unfold oracle_in_range; infer_instance

lemma exec_error_shape (e : Int) :
    (∃ p, p ∈ execution_error_messages ∧ process_execution_error e = .cpx p.2) ∨
    process_execution_error e = .keyError e := by
  unfold process_execution_error
  rcases h : execution_error_messages.find? (fun p => p.1 == e) with _ | p
  · right; rw [h]; rfl
  · left
    refine ⟨p, List.mem_of_find?_eq_some h, ?_⟩
    rw [h]; rfl

lemma exec_error_not_parse (e : Int) :
    process_execution_error e ≠ .cpx "Command parsing error" := by
  have htab : ∀ p ∈ execution_error_messages, p.2 ≠ "Command parsing error" := by decide
  rcases exec_error_shape e with ⟨p, hp, hep⟩ | hk
  · rw [hep]
    intro hc
    exact htab p hp (by injection hc)
  · rw [hk]; intro hc; cases hc

lemma exec_error_not_consistency (e : Int) :
    isConsistencyError (process_execution_error e) = false := by
  rcases exec_error_shape e with ⟨p, _, hep⟩ | hk
  · rw [hep]; rfl
  · rw [hk]; rfl

lemma limit_err_none (l : Int) (ch : Nat) (h0 : 0 ≤ l) (h1 : l ≤ 255) :
    (process_limit_event_register l ch).2 = none := by
  simp [process_limit_event_register, h0, h1]

lemma esr_err_not_consistency (esr : Int) (orc : Oracle)
    (h0 : 0 ≤ esr) (h1 : esr ≤ 255) :
    ∀ e, (process_event_status_register esr orc).2 = some e →
      isConsistencyError e = false := by
  intro e he
  unfold process_event_status_register at he
  rw [if_pos ⟨h0, h1⟩] at he
  repeat' split at he
  all_goals first
    | (cases he; rfl)
    | (cases he; exact exec_error_not_consistency orc.eer)
    | simp at he

lemma esr_queries_sub (esr : Int) (orc : Oracle) :
    List.filter isTopQuery (process_event_status_register esr orc).1 = [] := by
  unfold process_event_status_register
  repeat' split
  all_goals rfl

lemma isTopQuery_lsr1 : isTopQuery "LSR1?" = true := rfl

lemma isTopQuery_lsr2 : isTopQuery "LSR2?" = true := rfl

lemma isTopQuery_esr : isTopQuery "*ESR?" = true := rfl

lemma read_until_crlf_append (line rest : List Char) (h : noCRLF line = true) :
    read_until_crlf (line ++ '\r' :: '\n' :: rest) = line ++ ['\r', '\n'] := by
  induction line with
  | nil => simp [read_until_crlf]
  | cons c cs ih =>
      unfold noCRLF at h
      by_cases hc : c = '\r' ∧ cs.head? = some '\n'
      · rw [if_pos hc] at h
        cases h
      · rw [if_neg hc] at h
        have hc2 : ¬ (c = '\r' ∧ (cs ++ '\r' :: '\n' :: rest).head? = some '\n') := by
          cases cs with
          | nil => simp
          | cons d ds =>
              intro hcc
              exact hc ⟨hcc.1, by simpa using hcc.2⟩
        rw [List.cons_append]
        rw [show read_until_crlf (c :: (cs ++ '\r' :: '\n' :: rest)) =
              (if c = '\r' ∧ (cs ++ '\r' :: '\n' :: rest).head? = some '\n' then ['\r', '\n']
               else c :: read_until_crlf (cs ++ '\r' :: '\n' :: rest)) from rfl]
        rw [if_neg hc2, ih h]
        simp

/-- C1: for every status byte in 0..255 (with the fake transport's limit
registers in range, so no decode aborts the cascade early), the cascade
issues exactly the §4.4 sub-queries — `LSR1?` iff bit 0 is set, `LSR2?`
iff bit 1 is set, `*ESR?` iff bit 5 is set, in that order, and nothing for
bits 2, 3, 4, 6, 7 — with all set bits processed in the same invocation. -/
theorem status_cascade_subqueries (stb : Int) (orc : Oracle)
    (h0 : 0 ≤ stb) (h1 : stb ≤ 255)
    (hl1 : 0 ≤ orc.lsr1 ∧ orc.lsr1 ≤ 255) (hl2 : 0 ≤ orc.lsr2 ∧ orc.lsr2 ≤ 255) :
    List.filter isTopQuery (process_status_byte_register stb orc).queries =
      (if stb.toNat.testBit 0 = true then ["LSR1?"] else []) ++
      (if stb.toNat.testBit 1 = true then ["LSR2?"] else []) ++
      (if stb.toNat.testBit 5 = true then ["*ESR?"] else []) := by
  unfold process_status_byte_register
  rw [if_pos ⟨h0, h1⟩]
  by_cases b0 : stb.toNat.testBit 0 = true <;> by_cases b1 : stb.toNat.testBit 1 = true <;>
    by_cases b5 : stb.toNat.testBit 5 = true <;>
      simp [andThen, b0, b1, b5,
            limit_err_none orc.lsr1 1 hl1.1 hl1.2, limit_err_none orc.lsr2 2 hl2.1 hl2.2,
            esr_queries_sub, isTopQuery_lsr1, isTopQuery_lsr2, isTopQuery_esr]

/-- C1 witness: status byte `0x21` (bits 0 and 5) issues both `LSR1?` and
`*ESR?` in one invocation. -/
theorem status_cascade_subqueries_witness :
    List.filter isTopQuery (process_status_byte_register 33 oracle0).queries =
      ["LSR1?", "*ESR?"] := by
  have h := status_cascade_subqueries 33 oracle0 (by decide) (by decide)
    (by decide) (by decide)
  exact h.trans (by decide)

/-- C2 (code bug): a `query` whose read succeeds returns the response
without running the status cascade — no `*STB?` is written on the success
path, contradicting both the spec and the method's own docstring. -/
theorem query_success_no_status_check :
    query "V1?" "V1 1.000\r\n" oracle0 = ⟨["V1?"], [], .ok "V1 1.000\r\n"⟩ ∧
    "*STB?" ∉ (query "V1?" "V1 1.000\r\n" oracle0).writes := by
  constructor <;> decide

/-- C3 (code bug): `_process_execution_error` raises on every code in the
table, including code 0, whose message is "0: No error encountered" — the
spec says code 0 is a no-op; code 104 carries exactly the documented
message; a code not in the table raises the bare `KeyError` of the dict
lookup rather than a dedicated unknown-code error. -/
theorem execution_error_zero_raises :
    process_execution_error 0 = .cpx "0: No error encountered" ∧
    process_execution_error 104 = .cpx "104: Command not valid with output on" ∧
    process_execution_error 50 = .keyError 50 := by
  refine ⟨?_, ?_, ?_⟩ <;> decide

/-- C4: a `query` whose read times out (empty read) still writes `*STB?`
and runs the cascade, and — when the cascade itself completes without
raising — the original timeout error is re-raised to the caller. -/
theorem query_timeout_checks_status (cmd : String) (orc : Oracle)
    (hc : (check_status orc).err = none) :
    (query cmd "" orc).result =
        .error (.timeoutError "Did not recieve any response from CPX400DP") ∧
    "*STB?" ∈ (query cmd "" orc).writes := by
  unfold query
  rw [if_pos rfl]
  constructor
  · simp [hc]
  · simp [check_status]

/-- C4 witness at a concrete command and a benign device. -/
theorem query_timeout_checks_status_witness :
    (query "V1O?" "" oracle0).result =
        .error (.timeoutError "Did not recieve any response from CPX400DP") ∧
    "*STB?" ∈ (query "V1O?" "" oracle0).writes :=
  query_timeout_checks_status "V1O?" oracle0 (by decide)

/-- C5: an instrument is in the open-instruments registry after open and
not after close, and a second close is a no-op on the registry (the
membership guard makes the repeat removal never raise). -/
theorem registry_open_close_idempotent (reg : Finset Nat) (i : Nat) :
    i ∈ open_concrete reg i ∧
    i ∉ close (open_concrete reg i) i ∧
    close (close (open_concrete reg i) i) i = close (open_concrete reg i) i := by
  refine ⟨Finset.mem_insert_self i reg, ?_, ?_⟩
  · simp [close, open_concrete]
  · simp [close, open_concrete]

/-- C6: a register value outside 0..255 makes each decode raise the
`Unknown value` consistency error and issue no sub-queries; a value in
0..255 never produces that consistency error (for the status-byte cascade,
provided the fake transport's sub-register values are themselves in
range). -/
theorem register_range_check (v : Int) (orc : Oracle) (ch : Nat) :
    (¬ (0 ≤ v ∧ v ≤ 255) →
        process_status_byte_register v orc =
            ⟨[], [], some (.cpxRange "status byte" v)⟩ ∧
        process_event_status_register v orc = ([], some (.cpxRange "limit event" v)) ∧
        process_limit_event_register v ch = ([], some (.cpxRange "limit event" v)) ∧
        isConsistencyError (.cpxRange "status byte" v) = true) ∧
    ((0 ≤ v ∧ v ≤ 255) →
        (process_limit_event_register v ch).2 = none ∧
        (∀ e, (process_event_status_register v orc).2 = some e →
            isConsistencyError e = false) ∧
        (oracle_in_range orc →
            ∀ e, (process_status_byte_register v orc).err = some e →
              isConsistencyError e = false)) := by
  constructor
  · intro h
    refine ⟨?_, ?_, ?_, rfl⟩ <;>
      simp [process_status_byte_register, process_event_status_register,
            process_limit_event_register, h]
  · intro h
    refine ⟨limit_err_none v ch h.1 h.2, esr_err_not_consistency v orc h.1 h.2, ?_⟩
    intro hor e he
    unfold process_status_byte_register at he
    rw [if_pos h] at he
    by_cases b0 : v.toNat.testBit 0 = true <;> by_cases b1 : v.toNat.testBit 1 = true <;>
      by_cases b5 : v.toNat.testBit 5 = true <;>
        simp [andThen, b0, b1, b5,
              limit_err_none orc.lsr1 1 hor.1.1 hor.1.2,
              limit_err_none orc.lsr2 2 hor.2.1.1 hor.2.1.2] at he <;>
        exact esr_err_not_consistency orc.esr orc hor.2.2.1 hor.2.2.2 e he

/-- C6 witness: value 300 makes the status-byte decode raise the
consistency error with no sub-queries, and value 7 (in range) makes the
limit decode raise nothing. -/
theorem register_range_check_witness :
    process_status_byte_register 300 oracle0 =
        ⟨[], [], some (.cpxRange "status byte" 300)⟩ ∧
    (process_limit_event_register 7 1).2 = none := by
  have h1 := (register_range_check 300 oracle0 1).1 (by decide)
  have h2 := (register_range_check 7 oracle0 1).2 (by decide)
  exact ⟨h1.1, h2.1⟩

/-- C7: setting the voltage setpoint to 12.345 V writes `V1 12.345`
(fixed 3-decimal formatting), and reading the setpoint back from a
transport that echoes the set value in query form returns exactly
12.345 V (12345 milli-units). -/
theorem voltage_setpoint_round_trip :
    set_voltage_setpoint_cmd 1 12345 = "V1 12.345" ∧
    voltage_setpoint_from_response "V1 12.345" = some 12345 := by
  constructor <;> decide

/-- C8 counterexample: a successful read returns the line WITH the
terminator — `read` of a buffer holding `V1 1.000\r\n` yields
`"V1 1.000\r\n"`, not the `"V1 1.000"` the claim requires. -/
theorem read_keeps_terminator_counterexample :
    read "V1 1.000\r\n" = .ok "V1 1.000\r\n" ∧
    read "V1 1.000\r\n" ≠ .ok "V1 1.000" := by
  constructor <;> decide

/-- C8 (amended): `read` consumes the buffer up to and including the
first `\r\n` and returns that line terminator included; an empty read
raises the timeout error. -/
theorem read_line_with_terminator (line rest : List Char)
    (hno : noCRLF line = true) :
    read (String.mk (line ++ '\r' :: '\n' :: rest)) =
        .ok (String.mk (line ++ ['\r', '\n'])) ∧
    read "" = .error (.timeoutError "Did not recieve any response from CPX400DP") := by
  constructor
  · unfold read
    rw [show (String.mk (line ++ '\r' :: '\n' :: rest)).data = line ++ '\r' :: '\n' :: rest
          from rfl]
    rw [read_until_crlf_append line rest hno]
    rw [if_neg (by intro hq; have hd := congrArg String.data hq; simp at hd)]
  · decide

/-- C8 witness at the concrete line `OK`. -/
theorem read_line_with_terminator_witness :
    read (String.mk (['O', 'K'] ++ '\r' :: '\n' :: [])) =
        .ok (String.mk (['O', 'K'] ++ ['\r', '\n'])) ∧
    read "" = .error (.timeoutError "Did not recieve any response from CPX400DP") :=
  read_line_with_terminator ['O', 'K'] [] (by decide)

/-- C9: for every limit register value in 0..255 and every channel, the
decode raises nothing and logs exactly one channel-tagged warning per set
meaningful bit (0, 1, 2, 3, 4, 6), in bit order. -/
theorem limit_register_warnings (lsr : Int) (ch : Nat)
    (h0 : 0 ≤ lsr) (h1 : lsr ≤ 255) :
    process_limit_event_register lsr ch =
      ((limit_bits lsr.toNat).map (fun b => LogEvent.limit ch (limit_message b)), none) := by
  unfold process_limit_event_register
  rw [if_pos ⟨h0, h1⟩]
  by_cases b0 : lsr.toNat.testBit 0 = true <;> by_cases b1 : lsr.toNat.testBit 1 = true <;>
    by_cases b2 : lsr.toNat.testBit 2 = true <;> by_cases b3 : lsr.toNat.testBit 3 = true <;>
      by_cases b4 : lsr.toNat.testBit 4 = true <;> by_cases b6 : lsr.toNat.testBit 6 = true <;>
        simp [limit_bits, limit_message, b0, b1, b2, b3, b4, b6]

/-- C9 witness at value 69 (bits 0, 2, 6) on channel 1. -/
theorem limit_register_warnings_witness :
    process_limit_event_register 69 1 =
      ((limit_bits (Int.toNat 69)).map (fun b => LogEvent.limit 1 (limit_message b)), none) :=
  limit_register_warnings 69 1 (by decide) (by decide)

/-- C10: the event-status decode raises at the first fatal bit in
ascending order — if bit 2 or bit 3 is set no `EER?` sub-query is ever
issued, and the command-parsing error of bit 5 is surfaced exactly when
bits 2, 3 and 4 are all clear and bit 5 is set. -/
theorem esr_fatal_first_bit (esr : Int) (orc : Oracle)
    (h0 : 0 ≤ esr) (h1 : esr ≤ 255) :
    ((esr.toNat.testBit 2 = true ∨ esr.toNat.testBit 3 = true) →
        (process_event_status_register esr orc).1 = []) ∧
    ((process_event_status_register esr orc).2 = some (.cpx "Command parsing error") ↔
        (esr.toNat.testBit 5 = true ∧ esr.toNat.testBit 2 = false ∧
         esr.toNat.testBit 3 = false ∧ esr.toNat.testBit 4 = false)) := by
  unfold process_event_status_register
  rw [if_pos ⟨h0, h1⟩]
  by_cases b2 : esr.toNat.testBit 2 = true <;> by_cases b3 : esr.toNat.testBit 3 = true <;>
    by_cases b4 : esr.toNat.testBit 4 = true <;> by_cases b5 : esr.toNat.testBit 5 = true <;>
      simp [b2, b3, b4, b5,
            exec_error_not_parse]

/-- C10 witness at ESR value 44 (bits 2, 3, 5 set): no `EER?` sub-query,
and the bit-5 parse error is not the one surfaced. -/
theorem esr_fatal_first_bit_witness :
    (process_event_status_register 44 oracle0).1 = [] ∧
    ¬ ((process_event_status_register 44 oracle0).2 =
        some (.cpx "Command parsing error")) := by
  have h := esr_fatal_first_bit 44 oracle0 (by decide) (by decide)
  refine ⟨h.1 (Or.inl (by decide)), ?_⟩
  rw [h.2]
  decide

end CPX
